import Mathlib

/-!
Verification development for the caching / idempotency core of the
City Map Poster Generator (cache.py, output_cache.py, utils.py, and
the orchestration logic in main.py), shallowly embedded in Lean 4.

Machine integers are modelled as `Nat` with explicit `% 2^32` where the
source relies on 32-bit wraparound (the SHA-256 digest used for cache
keys); stateful code (the on-disk registry and cache directory) is
modelled by explicit state passing; fallible code returns `Option`.
-/

namespace TerraPoster

/-! ## SHA-256 (as used by `hashlib.sha256` in cache.py / output_cache.py)

The two key-derivation functions truncate a real SHA-256 hex digest to
16 characters, so we embed SHA-256 itself, executable over `Nat`. -/

def w32 (n : Nat) : Nat := n % 4294967296

def rotr (n x : Nat) : Nat := w32 ((x >>> n) ||| (x <<< (32 - n)))

def bigS0 (x : Nat) : Nat := (rotr 2 x) ^^^ (rotr 13 x) ^^^ (rotr 22 x)
def bigS1 (x : Nat) : Nat := (rotr 6 x) ^^^ (rotr 11 x) ^^^ (rotr 25 x)
def smallS0 (x : Nat) : Nat := (rotr 7 x) ^^^ (rotr 18 x) ^^^ (x >>> 3)
def smallS1 (x : Nat) : Nat := (rotr 17 x) ^^^ (rotr 19 x) ^^^ (x >>> 10)

def chF (x y z : Nat) : Nat := (x &&& y) ^^^ ((x ^^^ 4294967295) &&& z)
def majF (x y z : Nat) : Nat := (x &&& y) ^^^ (x &&& z) ^^^ (y &&& z)

def shaK : List Nat :=
  [1116352408, 1899447441, 3049323471, 3921009573, 961987163, 1508970993,
   2453635748, 2870763221, 3624381080, 310598401, 607225278, 1426881987,
   1925078388, 2162078206, 2614888103, 3248222580, 3835390401, 4022224774,
   264347078, 604807628, 770255983, 1249150122, 1555081692, 1996064986,
   2554220882, 2821834349, 2952996808, 3210313671, 3336571891, 3584528711,
   113926993, 338241895, 666307205, 773529912, 1294757372, 1396182291,
   1695183700, 1986661051, 2177026350, 2456956037, 2730485921, 2820302411,
   3259730800, 3345764771, 3516065817, 3600352804, 4094571909, 275423344,
   430227734, 506948616, 659060556, 883997877, 958139571, 1322822218,
   1537002063, 1747873779, 1955562222, 2024104815, 2227730452, 2361852424,
   2428436474, 2756734187, 3204031479, 3329325298]

def shaH0 : List Nat :=
  [1779033703, 3144134277, 1013904242, 2773480762, 1359893119, 2600822924,
   528734635, 1541459225]

/-- SHA-256 padding: append 0x80, zeros to 56 mod 64, then the 64-bit
big-endian bit length. -/
def shaPad (msg : List Nat) : List Nat :=
  let len := msg.length
  let bitLen := len * 8
  let zeros := (64 + 55 - len % 64) % 64
  msg ++ [0x80] ++ List.replicate zeros 0 ++
    [(bitLen >>> 56) % 256, (bitLen >>> 48) % 256, (bitLen >>> 40) % 256,
     (bitLen >>> 32) % 256, (bitLen >>> 24) % 256, (bitLen >>> 16) % 256,
     (bitLen >>> 8) % 256, bitLen % 256]

/-- Split a byte list into big-endian 32-bit words (4 bytes each). -/
def bytesToWords : List Nat → List Nat
  | b0 :: b1 :: b2 :: b3 :: rest =>
      (b0 * 16777216 + b1 * 65536 + b2 * 256 + b3) :: bytesToWords rest
  | _ => []

/-- Extend 16 schedule words to 64. -/
def shaSchedule (w : List Nat) (rounds : Nat) : List Nat :=
  match rounds with
  | 0 => w
  | r + 1 =>
      let i := w.length
      let w2 := (w.get? (i - 2)).getD 0
      let w7 := (w.get? (i - 7)).getD 0
      let w15 := (w.get? (i - 15)).getD 0
      let w16 := (w.get? (i - 16)).getD 0
      shaSchedule (w ++ [w32 (smallS1 w2 + w7 + smallS0 w15 + w16)]) r

/-- One round of the SHA-256 compression function. -/
def shaRound (st : List Nat) (kw : Nat × Nat) : List Nat :=
  match st with
  | [a, b, c, d, e, f, g, h] =>
      let t1 := w32 (h + bigS1 e + chF e f g + kw.1 + kw.2)
      let t2 := w32 (bigS0 a + majF a b c)
      [w32 (t1 + t2), a, b, c, w32 (d + t1), e, f, g]
  | other => other

/-- Compress one 64-byte block into the running hash state. -/
def shaBlock (h : List Nat) (block : List Nat) : List Nat :=
  let w := shaSchedule (bytesToWords block) 48
  let st := (w.zip shaK).foldl shaRound h
  (h.zip st).map fun p => w32 (p.1 + p.2)

/-- Fold the compression function over consecutive 64-byte blocks
(structural recursion on the block count so the kernel can evaluate it). -/
def shaBlocksN : Nat → List Nat → List Nat → List Nat
  | 0, h, _ => h
  | n + 1, h, bytes => shaBlocksN n (shaBlock h (bytes.take 64)) (bytes.drop 64)

def shaBlocks (h : List Nat) (bytes : List Nat) : List Nat :=
  shaBlocksN (bytes.length / 64) h bytes

/-- SHA-256 digest of a byte list, as 32 bytes. -/
def sha256Bytes (msg : List Nat) : List Nat :=
  (shaBlocks shaH0 (shaPad msg)).flatMap fun word =>
    [(word >>> 24) % 256, (word >>> 16) % 256, (word >>> 8) % 256, word % 256]

def hexDigit (n : Nat) : Char :=
  (("0123456789abcdef".data).get? n).getD '0'

def bytesToHex (bs : List Nat) : String :=
  ⟨bs.flatMap fun b => [hexDigit (b / 16), hexDigit (b % 16)]⟩

/-- UTF-8 encoding of a string as a byte list (`str.encode()` in the source). -/
def utf8Bytes (s : String) : List Nat :=
  s.data.flatMap fun c =>
    let n := c.toNat
    if n < 0x80 then [n]
    else if n < 0x800 then [0xC0 ||| (n >>> 6), 0x80 ||| (n &&& 0x3F)]
    else if n < 0x10000 then
      [0xE0 ||| (n >>> 12), 0x80 ||| ((n >>> 6) &&& 0x3F), 0x80 ||| (n &&& 0x3F)]
    else
      [0xF0 ||| (n >>> 18), 0x80 ||| ((n >>> 12) &&& 0x3F),
       0x80 ||| ((n >>> 6) &&& 0x3F), 0x80 ||| (n &&& 0x3F)]

/-- `hashlib.sha256(s.encode()).hexdigest()` -/
def sha256Hex (s : String) : String := bytesToHex (sha256Bytes (utf8Bytes s))

/-- First 16 hex characters of the digest (`hexdigest()[:16]`). -/
def sha256Hex16 (s : String) : String := ⟨(sha256Hex s).data.take 16⟩

/-! ## String helpers

`str.lower()` and path-prefix handling are modelled over the character
list (faithful for the ASCII arguments the tool receives; kernel
reduction needs list-based definitions). -/

/-- ASCII lowercasing of one character, as `str.lower()` acts on the
ASCII range. -/
def lowerChar (c : Char) : Char :=
  if 65 ≤ c.toNat && c.toNat ≤ 90 then Char.ofNat (c.toNat + 32) else c

/-- `s.lower()` (ASCII range). -/
def strToLower (s : String) : String := ⟨s.data.map lowerChar⟩

def isPrefixList : List Char → List Char → Bool
  | [], _ => true
  | _ :: _, [] => false
  | a :: as, b :: bs => a == b && isPrefixList as bs

def strPrefixOf (p s : String) : Bool := isPrefixList p.data s.data

def strDrop (s : String) (n : Nat) : String := ⟨s.data.drop n⟩

/-! ## Association lists standing in for Python dicts and directories

The JSON registry object and the cache directory are modelled as
association lists with string keys. -/

def lookupA {β : Type} (k : String) : List (String × β) → Option β
  | [] => none
  | (k2, v) :: t => if k2 = k then some v else lookupA k t

/-- Dict assignment `d[k] = v`: replace the first binding or append. -/
def setA {β : Type} (k : String) (v : β) : List (String × β) → List (String × β)
  | [] => [(k, v)]
  | (k2, v2) :: t => if k2 = k then (k, v) :: t else (k2, v2) :: setA k v t

/-- File deletion `path.unlink()`: drop every binding for the key. -/
def removeA {β : Type} (k : String) : List (String × β) → List (String × β)
  | [] => []
  | (k2, v2) :: t => if k2 = k then removeA k t else (k2, v2) :: removeA k t

/-! ## config.py -/

/-- `ROOT_DIR = Path(__file__).parent.parent` — the absolute project root
at runtime. Its concrete value is irrelevant to every claim; it is fixed
here as an abstract placeholder. -/
def ROOT_DIR : String := "/terraposter"

def POSTERS_DIR : String := ROOT_DIR ++ "/posters"

/-- `p.relative_to(ROOT_DIR)`: strips the root prefix, or raises
(`none`) when `p` is not under the root. -/
def relativeToRoot (p : String) : Option String :=
  if strPrefixOf (ROOT_DIR ++ "/") p then
    some (strDrop p (ROOT_DIR ++ "/").data.length)
  else none

/-! ## output.py -/

/-- `generate_output_filename` (output.py): timestamped slug filename in
`posters/`. The `datetime.now().strftime` timestamp is passed explicitly. -/
def generate_output_filename (city theme_name output_format timestamp : String) : String :=
  let city_slug :=
    (((strToLower city).replace " " "_").replace "," "").replace
      (String.singleton (Char.ofNat 39)) ""
  POSTERS_DIR ++ "/" ++ city_slug ++ "_" ++ theme_name ++ "_" ++ timestamp ++
    "." ++ strToLower output_format

/-! ## output_cache.py -/

/-- One value of the registry JSON object (`index[key]` in
`record_new_output`). -/
structure OutputRecord where
  path : String
  generated_at : String
  city : String
  country : String
  theme : String
  distance_m : Int
  size : String
  dpi : Int
  format : String
deriving DecidableEq, Repr

/-- On-disk state of `generated_posters.json`: absent, present but not
valid JSON, or a well-formed JSON object. -/
inductive RegFile
  | missing
  | corrupt
  | valid (entries : List (String × OutputRecord))
deriving DecidableEq, Repr

/-- `_make_output_key` (output_cache.py:26): lowercased pipe-joined
parameter string, SHA-256, first 16 hex chars. -/
def _make_output_key (city country theme : String) (distance : Int)
    (size : String) (dpi : Int) (format : String) : String :=
  sha256Hex16 (strToLower city ++ "|" ++ strToLower country ++ "|" ++
    strToLower theme ++ "|" ++ toString distance ++ "|" ++ strToLower size ++
    "|" ++ toString dpi ++ "|" ++ strToLower format)

/-- `load_output_index` (output_cache.py:40): missing file gives an empty
index silently; a file whose `json.load` raises gives an empty index plus
the printed warning. Returns (index, printed warnings). -/
def load_output_index : RegFile → List (String × OutputRecord) × List String
  | .missing => ([], [])
  | .corrupt =>
      ([], ["Warning: generated_posters.json corrupted - starting fresh"])
  | .valid entries => (entries, [])

/-- `save_output_index` (output_cache.py:51): writes the whole mapping;
a failed write is caught and leaves a warning, modelled by the `writeOk`
flag. -/
def save_output_index (index : List (String × OutputRecord)) (writeOk : Bool)
    (st : RegFile) : RegFile :=
  if writeOk then .valid index else st

/-- `check_previous_output` (output_cache.py:60). Returns the looked-up
record together with the (untouched) registry file state. -/
def check_previous_output (city country theme : String) (distance : Int)
    (size : String) (dpi : Int) (format : String) (st : RegFile) :
    Option OutputRecord × RegFile :=
  let index := (load_output_index st).1
  let key := _make_output_key city country theme distance size dpi format
  (lookupA key index, st)

/-- `record_new_output` (output_cache.py:72). `now` is the
`datetime.now().isoformat()` stamp. `none` models the `ValueError` from
`output_path.relative_to(ROOT_DIR)` when the path is not under the root
(never the case for paths from `generate_output_filename`). -/
def record_new_output (city country theme : String) (distance : Int)
    (size : String) (dpi : Int) (format : String) (output_path : String)
    (now : String) (writeOk : Bool) (st : RegFile) : Option RegFile :=
  let index := (load_output_index st).1
  let key := _make_output_key city country theme distance size dpi format
  match relativeToRoot output_path with
  | none => none
  | some rel =>
      some (save_output_index
        (setA key
          { path := rel, generated_at := now, city := city, country := country,
            theme := theme, distance_m := distance, size := size, dpi := dpi,
            format := format } index)
        writeOk st)

/-! ## cache.py

Coordinates are modelled in exact micro-degrees (`Int`), so that the
source's fixed-precision formatting `f"{lat:.6f}"` is the exact decimal
rendering below and key derivation stays a pure function of the inputs. -/

/-- Zero-pad a fraction to 6 digits. -/
def pad6 (n : Nat) : String :=
  let s := toString n
  String.mk (List.replicate (6 - s.length) '0') ++ s

/-- `f"{x:.6f}"` for a coordinate given in micro-degrees. -/
def format6 (micro : Int) : String :=
  (if micro < 0 then "-" else "") ++
    toString (micro.natAbs / 1000000) ++ "." ++ pad6 (micro.natAbs % 1000000)

/-- `_make_cache_key` (cache.py:33). -/
def _make_cache_key (lat lon : Int) (distance : Int) : String :=
  sha256Hex16 (format6 lat ++ "|" ++ format6 lon ++ "|" ++ toString distance)

/-- The map-data cache directory `.cache/`: filename to blob. A blob
that `pickle.load` rejects is `none` (corrupt); otherwise it
deserializes to a payload of type `α` (the opaque `(G, water, parks)`
tuple). -/
def CacheFS (α : Type) : Type := List (String × Option α)

def cacheFileName (key : String) : String := key ++ ".pkl"

/-- `get_cached_data` (cache.py:43). Returns (result, printed lines,
directory state after the call). -/
def get_cached_data {α : Type} (lat lon : Int) (distance : Int)
    (fs : CacheFS α) : Option α × List String × CacheFS α :=
  let key := _make_cache_key lat lon distance
  match lookupA (cacheFileName key) fs with
  | none => (none, [], fs)
  | some none =>
      (none, ["Cache load failed - fetching fresh data"], fs)
  | some (some data) =>
      (some data, ["Using cached map data"], fs)

/-- `save_to_cache` (cache.py:66). A failed write is caught (warning)
and leaves the directory unchanged, modelled by `writeOk`. Returns
(directory state, writes performed as (filename, payload) pairs). -/
def save_to_cache {α : Type} (lat lon : Int) (distance : Int) (data : α)
    (writeOk : Bool) (fs : CacheFS α) : CacheFS α × List (String × α) :=
  let key := _make_cache_key lat lon distance
  let file := cacheFileName key
  if writeOk then (setA file (some data) fs, [(file, data)])
  else (fs, [])

/-- The `--no-cache` invalidation fragment (main.py:239): unlink the
cache file for the key if it exists. -/
def unlinkIfExists {α : Type} (p : String) (fs : CacheFS α) : CacheFS α :=
  if (lookupA p fs).isSome then removeA p fs else fs

/-! ## utils.py — `retry_call`

The operation's behaviour is the function `op` from the (1-indexed)
attempt number to `Except`; `retryable e` says whether the raised
exception's type matches the `exceptions` tuple (a non-matching
exception is not caught by the `except` clause and propagates at once).
Sleep durations are exact rationals. -/

inductive RetryOutcome (ε α : Type)
  | ok (a : α)
  | raised (e : ε)
  | raisedNone
deriving DecidableEq, Repr

/-- Observable behaviour of one `retry_call` invocation: final outcome,
number of times `func()` was invoked, and the `time.sleep` durations in
order. -/
structure RetryTrace (ε α : Type) where
  outcome : RetryOutcome ε α
  calls : Nat
  sleeps : List ℚ
deriving DecidableEq, Repr

/-- The `for attempt in range(1, max_retries + 1)` loop of `retry_call`
(utils.py:53), structurally recursive on the remaining iterations
(`fuel = max_retries + 1 - attempt`). Exhausted fuel reaches the
trailing `raise last_exc` with `last_exc = None`. -/
def retryAux {ε α : Type} (op : Nat → Except ε α) (retryable : ε → Bool)
    (max_retries : Nat) (base_sleep backoff_factor : ℚ) :
    Nat → Nat → RetryTrace ε α
  | _, 0 => ⟨.raisedNone, 0, []⟩
  | attempt, fuel + 1 =>
      match op attempt with
      | .ok a => ⟨.ok a, 1, []⟩
      | .error e =>
          if retryable e then
            if attempt = max_retries then ⟨.raised e, 1, []⟩
            else
              let wait := base_sleep * backoff_factor ^ (attempt - 1)
              let t := retryAux op retryable max_retries base_sleep
                backoff_factor (attempt + 1) fuel
              ⟨t.outcome, t.calls + 1, wait :: t.sleeps⟩
          else ⟨.raised e, 1, []⟩

/-- `retry_call` (utils.py:23). -/
def retry_call {ε α : Type} (op : Nat → Except ε α) (retryable : ε → Bool)
    (max_retries : Nat) (base_sleep backoff_factor : ℚ) : RetryTrace ε α :=
  retryAux op retryable max_retries base_sleep backoff_factor 1 max_retries

/-! ## main.py orchestration (lines 210–298) and map_data.py

The run is modelled from the output-registry check onward: argument
derivation, theme loading and geocoding happen earlier in `main` and
enter here as already-resolved inputs (`city`, …, `effective_dpi`,
clamped `distance`, geocoded `lat`/`lon`, `output_path`). The three
OSMnx layer fetches are assumed to succeed and jointly produce the
opaque payload `fetchResult`; rendering is assumed to succeed and
creates the file at `output_path`. -/

inductive Event
  | lookupRegistry
  | unlinkCache
  | cacheGet
  | mapFetch
  | cacheSave
  | render
  | recordOutput
deriving DecidableEq, Repr

/-- `fetch_map_data` (map_data.py:97) result: payload, number of times
the fetching block ran, cache writes performed, events in order, and
the cache directory afterwards. -/
structure FetchOut (α : Type) where
  data : α
  fetchCount : Nat
  writes : List (String × α)
  events : List Event
  fs : CacheFS α

/-- `fetch_map_data` (map_data.py:97): with `use_cache` it consults the
disk cache first and returns the entry without fetching on a hit;
otherwise it runs the fetching block and, with `use_cache`, saves the
result via `save_to_cache`. -/
def fetch_map_data {α : Type} (lat lon : Int) (distance : Int)
    (use_cache : Bool) (fetchResult : α) (writeOk : Bool) (fs : CacheFS α) :
    FetchOut α :=
  if use_cache then
    let got := get_cached_data lat lon distance fs
    match got.1 with
    | some cached => ⟨cached, 0, [], [.cacheGet], got.2.2⟩
    | none =>
        let saved := save_to_cache lat lon distance fetchResult writeOk got.2.2
        ⟨fetchResult, 1, saved.2, [.cacheGet, .mapFetch, .cacheSave], saved.1⟩
  else ⟨fetchResult, 1, [], [.mapFetch], fs⟩

/-- The disk state a run starts from: the registry file, the map-data
cache directory, and the set of existing (absolute) file paths. -/
structure World (α : Type) where
  registry : RegFile
  mapCache : CacheFS α
  files : List String

/-- Observable result of one orchestrator run: final disk state, events
in order, the (path, generated_at) pair reported on the short-circuit
path, the map-cache writes performed, and the exit code. -/
structure RunResult (α : Type) where
  world : World α
  events : List Event
  reported : Option (String × String)
  cacheWrites : List (String × α)
  exitCode : Nat

/-- main.py:237–298 — everything after the registry short-circuit check:
optional `--no-cache` unlink, map-cache lookup, fetch-and-save on a
miss, render, registry record. -/
def mainGenerate {α : Type} (city country theme : String) (distance : Int)
    (size : String) (dpi : Int) (format : String) (no_cache : Bool)
    (lat lon : Int) (output_path : String) (fetchResult : α) (now : String)
    (cacheWriteOk regWriteOk : Bool) (w : World α) : RunResult α :=
  let file := cacheFileName (_make_cache_key lat lon distance)
  let fs1 := if no_cache then unlinkIfExists file w.mapCache else w.mapCache
  let unlinkEv := if no_cache then [Event.unlinkCache] else []
  let got := get_cached_data lat lon distance fs1
  let afterFetch :=
    match got.1 with
    | some d => (d, got.2.2, ([] : List (String × α)), ([] : List Event))
    | none =>
        let f := fetch_map_data lat lon distance true fetchResult cacheWriteOk
          got.2.2
        let saved := save_to_cache lat lon distance f.data cacheWriteOk f.fs
        (f.data, saved.1, f.writes ++ saved.2, f.events ++ [Event.cacheSave])
  let files2 := output_path :: w.files
  let events := [Event.lookupRegistry] ++ unlinkEv ++ [Event.cacheGet] ++
    afterFetch.2.2.2 ++ [Event.render, Event.recordOutput]
  match record_new_output city country theme distance size dpi format
      output_path now regWriteOk w.registry with
  | some reg2 =>
      ⟨⟨reg2, afterFetch.2.1, files2⟩, events, none, afterFetch.2.2.1, 0⟩
  | none =>
      ⟨⟨w.registry, afterFetch.2.1, files2⟩, events, none, afterFetch.2.2.1, 1⟩

/-- main.py:210–298 — the orchestrator run from the registry check
onward: `check_previous_output` first; on a hit whose file still exists,
report and exit 0 without further work; otherwise generate. -/
def mainRun {α : Type} (city country theme : String) (distance : Int)
    (size : String) (dpi : Int) (format : String) (no_cache : Bool)
    (lat lon : Int) (output_path : String) (fetchResult : α) (now : String)
    (cacheWriteOk regWriteOk : Bool) (w : World α) : RunResult α :=
  let checked := check_previous_output city country theme distance size dpi
    format w.registry
  match checked.1 with
  | some rec =>
      if (ROOT_DIR ++ "/" ++ rec.path) ∈ w.files then
        ⟨w, [Event.lookupRegistry], some (rec.path, rec.generated_at), [], 0⟩
      else
        mainGenerate city country theme distance size dpi format no_cache
          lat lon output_path fetchResult now cacheWriteOk regWriteOk w
  | none =>
      mainGenerate city country theme distance size dpi format no_cache
        lat lon output_path fetchResult now cacheWriteOk regWriteOk w

/-! ## Shared lemmas -/

theorem lookupA_setA_self {β : Type} (k : String) (v : β)
    (l : List (String × β)) : lookupA k (setA k v l) = some v := by
  induction l with
  | nil => simp [setA, lookupA]
  | cons hd tl ih =>
      obtain ⟨k2, v2⟩ := hd
      by_cases h : k2 = k
      · simp [setA, lookupA, h]
      · simp [setA, lookupA, h, ih]

theorem lookupA_removeA_self {β : Type} (k : String)
    (l : List (String × β)) : lookupA k (removeA k l) = none := by
  induction l with
  | nil => simp [removeA, lookupA]
  | cons hd tl ih =>
      obtain ⟨k2, v2⟩ := hd
      by_cases h : k2 = k
      · simp [removeA, h, ih]
      · simp [removeA, lookupA, h, ih]

theorem get_cached_data_fs_frame {α : Type} (lat lon distance : Int)
    (fs : CacheFS α) : (get_cached_data lat lon distance fs).2.2 = fs := by
  simp only [get_cached_data]
  split <;> rfl

/-! ## Claim theorems -/

/-- C10: Lookups are read-only. `check_previous_output` returns the
registry file state it was given, and `get_cached_data` returns the
cache directory state it was given, for every input and every starting
disk state; neither has a write path. -/
theorem lookups_are_read_only {α : Type} (city country theme : String)
    (distance : Int) (size : String) (dpi : Int) (format : String)
    (st : RegFile) (lat lon dist2 : Int) (fs : CacheFS α) :
    (check_previous_output city country theme distance size dpi format st).2
        = st ∧
    (get_cached_data lat lon dist2 fs).2.2 = fs :=
  ⟨rfl, get_cached_data_fs_frame lat lon dist2 fs⟩

/-- C4: `save_to_cache` followed immediately by `get_cached_data` with
the same `(lat, lon, radius)` returns the stored entry (round-trip law,
with the write succeeding), and after the `--no-cache` invalidation
path unlinks the cache file for that key, a subsequent
`get_cached_data` with the same arguments returns absent. -/
theorem save_get_roundtrip_and_unlink_absent {α : Type}
    (lat lon distance : Int) (entry : α) (fs fs2 : CacheFS α) :
    (get_cached_data lat lon distance
        (save_to_cache lat lon distance entry true fs).1).1 = some entry ∧
    (get_cached_data lat lon distance
        (unlinkIfExists (cacheFileName (_make_cache_key lat lon distance))
          fs2)).1 = none := by
  constructor
  · unfold get_cached_data save_to_cache
    simp [lookupA_setA_self]
  · unfold get_cached_data unlinkIfExists
    cases h : lookupA (cacheFileName (_make_cache_key lat lon distance)) fs2 with
    | none => simp [h, lookupA_removeA_self]
    | some b => simp [h, lookupA_removeA_self]

/-- C5: `get_cached_data` never raises. If no cache file exists for the
derived key it returns absent; if the file exists but deserialization
fails (a corrupt blob) it returns absent and prints a warning; the
failure is never propagated (the embedding is a total function into
`Option`). -/
theorem get_cached_data_total_on_miss_and_corrupt {α : Type}
    (lat lon distance : Int) (fs : CacheFS α) :
    (lookupA (cacheFileName (_make_cache_key lat lon distance)) fs = none →
      (get_cached_data lat lon distance fs).1 = none) ∧
    (lookupA (cacheFileName (_make_cache_key lat lon distance)) fs
        = some none →
      (get_cached_data lat lon distance fs).1 = none ∧
      (get_cached_data lat lon distance fs).2.1 ≠ []) := by
  constructor
  · intro h
    unfold get_cached_data
    simp [h]
  · intro h
    unfold get_cached_data
    simp [h]

/-- C5 witness: a concrete empty cache directory (miss) and a concrete
directory holding a corrupt blob for the key of
(48.856600, 2.352200, 5000). -/
theorem get_cached_data_total_on_miss_and_corrupt_witness :
    ((get_cached_data 48856600 2352200 5000 ([] : CacheFS Nat)).1 = none) ∧
    ((get_cached_data 48856600 2352200 5000
        ([(cacheFileName (_make_cache_key 48856600 2352200 5000), none)] :
          CacheFS Nat)).1 = none ∧
      (get_cached_data 48856600 2352200 5000
        ([(cacheFileName (_make_cache_key 48856600 2352200 5000), none)] :
          CacheFS Nat)).2.1 ≠ []) :=
  ⟨(get_cached_data_total_on_miss_and_corrupt 48856600 2352200 5000
      ([] : CacheFS Nat)).1 rfl,
   (get_cached_data_total_on_miss_and_corrupt 48856600 2352200 5000
      ([(cacheFileName (_make_cache_key 48856600 2352200 5000), none)] :
        CacheFS Nat)).2 (by simp [lookupA])⟩

/-- C2 counterexample: the parameter tuples `(" Rome", "Italy", "noir",
6000, "default", 300, "png")` and `("Rome", "Italy", "noir", 6000,
"default", 300, "png")` differ only in incidental whitespace in the
city field, yet `_make_output_key` returns different keys — the claim
that normalized-equal tuples (including whitespace variations) always
get the identical key is false: `_make_output_key` lowercases but does
not strip whitespace. -/
theorem make_output_key_whitespace_counterexample :
    ¬ (_make_output_key " Rome" "Italy" "noir" 6000 "default" 300 "png" =
       _make_output_key "Rome" "Italy" "noir" 6000 "default" 300 "png") := by
  decide

/-- C2 (amended): for every two parameter tuples whose string fields
are equal after lowercasing (numeric fields equal), `_make_output_key`
returns the identical 16-hex-character key; whitespace in city/country
is not normalized. -/
theorem make_output_key_normalized_casing
    (c1 c2 co1 co2 t1 t2 s1 s2 f1 f2 : String) (distance dpi : Int)
    (hc : strToLower c1 = strToLower c2)
    (hco : strToLower co1 = strToLower co2)
    (ht : strToLower t1 = strToLower t2)
    (hs : strToLower s1 = strToLower s2)
    (hf : strToLower f1 = strToLower f2) :
    _make_output_key c1 co1 t1 distance s1 dpi f1 =
      _make_output_key c2 co2 t2 distance s2 dpi f2 := by
  unfold _make_output_key
  rw [hc, hco, ht, hs, hf]

/-- C2 witness: casing-only variants of the Rome tuple get the same key. -/
theorem make_output_key_normalized_casing_witness :
    _make_output_key "ROME" "Italy" "NoIr" 6000 "Default" 300 "PNG" =
      _make_output_key "rome" "italy" "noir" 6000 "default" 300 "png" :=
  make_output_key_normalized_casing "ROME" "rome" "Italy" "italy" "NoIr"
    "noir" "Default" "default" "PNG" "png" 6000 300 (by decide) (by decide)
    (by decide) (by decide) (by decide)

/-- C3: `record_new_output` followed immediately by
`check_previous_output` with identical parameters returns the
just-recorded record, whose `path` field is the recorded output path
relative to the project root, provided the registry write succeeded. -/
theorem record_then_check_roundtrip (city country theme : String)
    (distance : Int) (size : String) (dpi : Int) (format : String)
    (output_path rel now : String) (st : RegFile)
    (hrel : relativeToRoot output_path = some rel) :
    ∃ st2, record_new_output city country theme distance size dpi format
        output_path now true st = some st2 ∧
      (check_previous_output city country theme distance size dpi format
          st2).1 = some
        { path := rel, generated_at := now, city := city, country := country,
          theme := theme, distance_m := distance, size := size, dpi := dpi,
          format := format } := by
  refine ⟨RegFile.valid
      (setA (_make_output_key city country theme distance size dpi format)
        { path := rel, generated_at := now, city := city, country := country,
          theme := theme, distance_m := distance, size := size, dpi := dpi,
          format := format } (load_output_index st).1), ?_, ?_⟩
  · simp [record_new_output, hrel, save_output_index]
  · simp only [check_previous_output, load_output_index]
    exact lookupA_setA_self _ _ _

/-- C3 witness: a concrete Rome record round-trips through the registry. -/
theorem record_then_check_roundtrip_witness :
    ∃ st2, record_new_output "Rome" "Italy" "noir" 6000 "default" 300 "png"
        (ROOT_DIR ++ "/posters/rome_noir_20260122_100000.png")
        "2026-01-22T10:00:00" true RegFile.missing = some st2 ∧
      (check_previous_output "Rome" "Italy" "noir" 6000 "default" 300 "png"
          st2).1 = some
        { path := "posters/rome_noir_20260122_100000.png",
          generated_at := "2026-01-22T10:00:00", city := "Rome",
          country := "Italy", theme := "noir", distance_m := 6000,
          size := "default", dpi := 300, format := "png" } :=
  record_then_check_roundtrip "Rome" "Italy" "noir" 6000 "default" 300 "png"
    (ROOT_DIR ++ "/posters/rome_noir_20260122_100000.png")
    "posters/rome_noir_20260122_100000.png" "2026-01-22T10:00:00"
    RegFile.missing (by decide)

/-- C6: a missing registry file loads as the empty mapping silently; a
file with invalid JSON loads as the empty mapping with a visible
warning, never an error; on either state the next lookup returns
absent rather than raising; and a subsequent `record_new_output` on the
corrupt state still succeeds, persists its entry, and the entry is then
found by lookup. -/
theorem output_index_corruption_graceful (city country theme : String)
    (distance : Int) (size : String) (dpi : Int) (format : String)
    (output_path rel now : String)
    (hrel : relativeToRoot output_path = some rel) :
    load_output_index RegFile.missing = ([], []) ∧
    (load_output_index RegFile.corrupt).1 = [] ∧
    (load_output_index RegFile.corrupt).2 ≠ [] ∧
    (check_previous_output city country theme distance size dpi format
        RegFile.missing).1 = none ∧
    (check_previous_output city country theme distance size dpi format
        RegFile.corrupt).1 = none ∧
    ∃ st2, record_new_output city country theme distance size dpi format
        output_path now true RegFile.corrupt = some st2 ∧
      (check_previous_output city country theme distance size dpi format
          st2).1 = some
        { path := rel, generated_at := now, city := city, country := country,
          theme := theme, distance_m := distance, size := size, dpi := dpi,
          format := format } :=
  ⟨rfl, rfl, by simp [load_output_index], rfl, rfl,
   record_then_check_roundtrip city country theme distance size dpi format
     output_path rel now RegFile.corrupt hrel⟩

/-- C6 witness: the concrete Rome parameters against a corrupted and a
missing registry file. -/
theorem output_index_corruption_graceful_witness :
    load_output_index RegFile.missing = ([], []) ∧
    (load_output_index RegFile.corrupt).1 = [] ∧
    (load_output_index RegFile.corrupt).2 ≠ [] ∧
    (check_previous_output "Rome" "Italy" "noir" 6000 "default" 300 "png"
        RegFile.missing).1 = none ∧
    (check_previous_output "Rome" "Italy" "noir" 6000 "default" 300 "png"
        RegFile.corrupt).1 = none ∧
    ∃ st2, record_new_output "Rome" "Italy" "noir" 6000 "default" 300 "png"
        (ROOT_DIR ++ "/posters/rome_noir_20260122_100000.png")
        "2026-01-22T10:00:00" true RegFile.corrupt = some st2 ∧
      (check_previous_output "Rome" "Italy" "noir" 6000 "default" 300 "png"
          st2).1 = some
        { path := "posters/rome_noir_20260122_100000.png",
          generated_at := "2026-01-22T10:00:00", city := "Rome",
          country := "Italy", theme := "noir", distance_m := 6000,
          size := "default", dpi := 300, format := "png" } :=
  output_index_corruption_graceful "Rome" "Italy" "noir" 6000 "default" 300
    "png" (ROOT_DIR ++ "/posters/rome_noir_20260122_100000.png")
    "posters/rome_noir_20260122_100000.png" "2026-01-22T10:00:00" (by decide)

theorem geom_cons (base_sleep backoff_factor : ℚ) (a d : Nat) (ha : 1 ≤ a) :
    base_sleep * backoff_factor ^ (a - 1) ::
        (List.range d).map (fun i => base_sleep * backoff_factor ^ (a + 1 - 1 + i)) =
      (List.range (d + 1)).map (fun i => base_sleep * backoff_factor ^ (a - 1 + i)) := by
  rw [List.range_succ_eq_map, List.map_cons, List.map_map]
  have hfun : ((fun i => base_sleep * backoff_factor ^ (a - 1 + i)) ∘ Nat.succ) =
      (fun i => base_sleep * backoff_factor ^ (a + 1 - 1 + i)) := by
    funext i
    have h : a - 1 + Nat.succ i = a + 1 - 1 + i := by omega
    simp only [Function.comp, h]
  rw [hfun]
  norm_num

theorem retryAux_succeeds {ε α : Type} (op : Nat → Except ε α)
    (retryable : ε → Bool) (max_retries : Nat) (base_sleep backoff_factor : ℚ)
    (k : Nat) (v : α)
    (herr : ∀ i, 1 ≤ i → i ≤ k → ∃ e, op i = .error e ∧ retryable e = true)
    (hok : op (k + 1) = .ok v) (hmax : k + 1 ≤ max_retries) :
    ∀ d a, 1 ≤ a → a + d = k + 1 →
      retryAux op retryable max_retries base_sleep backoff_factor a
          (max_retries + 1 - a) =
        ⟨.ok v, d + 1, (List.range d).map
          (fun i => base_sleep * backoff_factor ^ (a - 1 + i))⟩ := by
  intro d
  induction d with
  | zero =>
      intro a ha1 hak
      have haeq : a = k + 1 := by omega
      obtain ⟨f, hf⟩ : ∃ f, max_retries + 1 - a = f + 1 :=
        ⟨max_retries - a, by omega⟩
      subst haeq
      rw [hf]
      simp [retryAux, hok]
  | succ d ih =>
      intro a ha1 hak
      have hale : a ≤ k := by omega
      obtain ⟨e, he, hre⟩ := herr a ha1 hale
      have hane : a ≠ max_retries := by omega
      have hf : max_retries + 1 - a = (max_retries + 1 - (a + 1)) + 1 := by
        omega
      rw [hf]
      simp only [retryAux, he, hre, if_true, if_neg hane,
        ih (a + 1) (by omega) (by omega)]
      rw [geom_cons base_sleep backoff_factor a d ha1]

/-- C7: an operation that raises a retryable exception on attempts 1..k
and succeeds on attempt k+1, run under `retry_call` with
`max_retries > k`, yields the success value, invokes the operation
exactly k+1 times, and sleeps exactly k times with the i-th wait equal
to `base_sleep * backoff_factor^(i-1)` (so the first retry waits
`base_sleep`; no cap or jitter). -/
theorem retry_call_success_after_k_failures {ε α : Type}
    (op : Nat → Except ε α) (retryable : ε → Bool) (max_retries : Nat)
    (base_sleep backoff_factor : ℚ) (k : Nat) (v : α)
    (herr : ∀ i, 1 ≤ i → i ≤ k → ∃ e, op i = .error e ∧ retryable e = true)
    (hok : op (k + 1) = .ok v) (hmax : max_retries > k) :
    retry_call op retryable max_retries base_sleep backoff_factor =
      ⟨.ok v, k + 1, (List.range k).map
        (fun i => base_sleep * backoff_factor ^ i)⟩ := by
  have haux := retryAux_succeeds op retryable max_retries base_sleep
    backoff_factor k v herr hok (by omega) k 1 (by omega) (by omega)
  rw [show max_retries + 1 - 1 = max_retries from by omega] at haux
  unfold retry_call
  rw [haux]
  have hfun : (fun i => base_sleep * backoff_factor ^ (1 - 1 + i)) =
      (fun i => base_sleep * backoff_factor ^ i) := by
    funext i
    norm_num
  rw [hfun]

/-- C7 witness: an operation failing retryably on attempts 1 and 2 and
returning 42 on attempt 3, with `max_retries = 3`, `base_sleep = 1`,
`backoff_factor = 2`. -/
theorem retry_call_success_after_k_failures_witness :
    retry_call (fun i => if i ≤ 2 then Except.error 0 else Except.ok 42)
      (fun _ => true) 3 1 2 =
      ⟨.ok 42, 3, (List.range 2).map (fun i => (1 : ℚ) * 2 ^ i)⟩ :=
  retry_call_success_after_k_failures
    (fun i => if i ≤ 2 then Except.error 0 else Except.ok 42)
    (fun _ => true) 3 1 2 2 42
    (fun i _ h2 => ⟨0, by simp [h2], rfl⟩) (by norm_num) (by norm_num)

theorem retryAux_exhausts {ε α : Type} (op : Nat → Except ε α)
    (retryable : ε → Bool) (max_retries : Nat) (base_sleep backoff_factor : ℚ)
    (errOf : Nat → ε)
    (herr : ∀ i, 1 ≤ i →
      op i = .error (errOf i) ∧ retryable (errOf i) = true) :
    ∀ d a, 1 ≤ a → a + d = max_retries →
      retryAux (α := α) op retryable max_retries base_sleep backoff_factor a
          (max_retries + 1 - a) =
        ⟨.raised (errOf max_retries), d + 1, (List.range d).map
          (fun i => base_sleep * backoff_factor ^ (a - 1 + i))⟩ := by
  intro d
  induction d with
  | zero =>
      intro a ha1 hak
      have haeq : a = max_retries := by omega
      subst haeq
      obtain ⟨he, hre⟩ := herr a ha1
      rw [show a + 1 - a = 0 + 1 from by omega]
      simp [retryAux, he, hre]
  | succ d ih =>
      intro a ha1 hak
      obtain ⟨he, hre⟩ := herr a ha1
      have hane : a ≠ max_retries := by omega
      have hf : max_retries + 1 - a = (max_retries + 1 - (a + 1)) + 1 := by
        omega
      rw [hf]
      simp only [retryAux, he, hre, if_true, if_neg hane,
        ih (a + 1) (by omega) (by omega)]
      rw [geom_cons base_sleep backoff_factor a d ha1]

/-- C8: an operation that raises a retryable exception on every attempt,
run under `retry_call` with `max_retries = n ≥ 1`, invokes the operation
exactly n times, sleeps exactly n-1 times, and propagates the exception
raised on the final attempt unchanged (not wrapped). -/
theorem retry_call_exhaustion_propagates {ε α : Type}
    (op : Nat → Except ε α) (retryable : ε → Bool) (n : Nat)
    (base_sleep backoff_factor : ℚ) (errOf : Nat → ε)
    (herr : ∀ i, 1 ≤ i →
      op i = .error (errOf i) ∧ retryable (errOf i) = true)
    (hn : 1 ≤ n) :
    retry_call (α := α) op retryable n base_sleep backoff_factor =
      ⟨.raised (errOf n), n, (List.range (n - 1)).map
        (fun i => base_sleep * backoff_factor ^ i)⟩ ∧
    ((List.range (n - 1)).map
        (fun i => base_sleep * backoff_factor ^ i)).length = n - 1 := by
  refine ⟨?_, by simp⟩
  have haux := retryAux_exhausts op retryable n base_sleep backoff_factor
    errOf herr (n - 1) 1 (by omega) (by omega)
  rw [show n + 1 - 1 = n from by omega] at haux
  rw [show n - 1 + 1 = n from by omega] at haux
  unfold retry_call
  rw [haux]
  have hfun : (fun i => base_sleep * backoff_factor ^ (1 - 1 + i)) =
      (fun i => base_sleep * backoff_factor ^ i) := by
    funext i
    norm_num
  rw [hfun]

/-- C8 witness: an operation raising attempt-number `i` on every attempt
`i`, with `max_retries = 2`: the attempt-2 exception propagates after one
sleep. -/
theorem retry_call_exhaustion_propagates_witness :
    (retry_call (α := Nat) (fun i => Except.error i) (fun _ => true) 2 1 2 =
      ⟨.raised 2, 2, (List.range 1).map (fun i => (1 : ℚ) * 2 ^ i)⟩) ∧
    ((List.range 1).map (fun i => (1 : ℚ) * 2 ^ i)).length = 1 :=
  retry_call_exhaustion_propagates (fun i => Except.error i) (fun _ => true)
    2 1 2 (fun i => i) (fun _ _ => ⟨rfl, rfl⟩) (by norm_num)

theorem mainGenerate_shape {α : Type} (city country theme : String)
    (distance : Int) (size : String) (dpi : Int) (format : String)
    (no_cache : Bool) (lat lon : Int) (output_path : String)
    (fetchResult : α) (now : String) (cW rW : Bool) (w : World α) :
    (mainGenerate city country theme distance size dpi format no_cache lat
        lon output_path fetchResult now cW rW w).reported = none ∧
    (mainGenerate city country theme distance size dpi format no_cache lat
        lon output_path fetchResult now cW rW w).events.head? =
      some Event.lookupRegistry ∧
    Event.render ∈ (mainGenerate city country theme distance size dpi format
        no_cache lat lon output_path fetchResult now cW rW w).events ∧
    Event.recordOutput ∈ (mainGenerate city country theme distance size dpi
        format no_cache lat lon output_path fetchResult now cW rW w).events := by
  unfold mainGenerate
  cases hrec : record_new_output city country theme distance size dpi format
      output_path now rW w.registry <;>
    cases hgot : (get_cached_data lat lon distance
        (if no_cache then
          unlinkIfExists (cacheFileName (_make_cache_key lat lon distance))
            w.mapCache
        else w.mapCache)).1 <;>
      simp [hgot, List.head?_append]

/-- C9: `fetch_map_data` with `use_cache = true` (its default, as the
orchestrator calls it) consults the map-data cache first: on a hit it
returns the cached entry with no fetch and no write; on a miss it
fetches once and writes the result via `save_to_cache`; consequently on
the orchestrator's full cache-miss path the same (key, data) pair is
written to the cache twice — once inside `fetch_map_data` and once by
`main`'s own `save_to_cache` call. -/
theorem fetch_map_data_cache_consult_and_double_write {α : Type}
    (lat lon distance : Int) (res d : α) (writeOk : Bool) (fs : CacheFS α)
    (city country theme : String) (size : String) (dpi : Int)
    (format : String) (output_path now : String) (regWriteOk : Bool)
    (w : World α) :
    ((get_cached_data lat lon distance fs).1 = some d →
      fetch_map_data lat lon distance true res writeOk fs =
        ⟨d, 0, [], [Event.cacheGet], fs⟩) ∧
    ((get_cached_data lat lon distance fs).1 = none →
      fetch_map_data lat lon distance true res true fs =
        ⟨res, 1, [(cacheFileName (_make_cache_key lat lon distance), res)],
          [Event.cacheGet, Event.mapFetch, Event.cacheSave],
          setA (cacheFileName (_make_cache_key lat lon distance)) (some res)
            fs⟩) ∧
    ((check_previous_output city country theme distance size dpi format
        w.registry).1 = none →
      (get_cached_data lat lon distance w.mapCache).1 = none →
      (mainRun city country theme distance size dpi format false lat lon
          output_path res now true regWriteOk w).cacheWrites =
        [(cacheFileName (_make_cache_key lat lon distance), res),
         (cacheFileName (_make_cache_key lat lon distance), res)]) := by
  refine ⟨?_, ?_, ?_⟩
  · intro h
    simp [fetch_map_data, h, get_cached_data_fs_frame]
  · intro h
    simp [fetch_map_data, h, get_cached_data_fs_frame, save_to_cache]
  · intro hprev hmiss
    simp only [mainRun, hprev]
    unfold mainGenerate
    cases hrec : record_new_output city country theme distance size dpi
        format output_path now regWriteOk w.registry <;>
      simp [hmiss, get_cached_data_fs_frame, fetch_map_data, save_to_cache,
        hrec]

/-- C9 witness: a run against an empty registry and empty map cache
performs the double write for the Paris key. -/
theorem fetch_map_data_cache_consult_and_double_write_witness :
    (mainRun "Paris" "France" "noir" 5000 "default" 300 "png" false
        48856600 2352200
        (ROOT_DIR ++ "/posters/paris_noir_20260122_100000.png") (7 : Nat)
        "2026-01-22T10:00:00" true true
        ⟨RegFile.missing, [], []⟩).cacheWrites =
      [(cacheFileName (_make_cache_key 48856600 2352200 5000), 7),
       (cacheFileName (_make_cache_key 48856600 2352200 5000), 7)] :=
  (fetch_map_data_cache_consult_and_double_write 48856600 2352200 5000 7 7
      true [] "Paris" "France" "noir" "default" 300 "png"
      (ROOT_DIR ++ "/posters/paris_noir_20260122_100000.png")
      "2026-01-22T10:00:00" true ⟨RegFile.missing, [], []⟩).2.2 rfl rfl

/-- C1: the orchestrator invokes the output-registry lookup before any
map-data fetch or render work (it is the first action of every run).
When the lookup finds a record and the file at the record's path
physically exists, the run performs no map-data fetch, no render and no
registry write, leaves the disk state unchanged, reports the existing
artifact's path and generation time, and exits 0 — a hard
short-circuit. When the record exists but its file is missing, the run
proceeds as a full miss: it renders and records anew, reporting no
cached artifact. -/
theorem mainRun_registry_short_circuit {α : Type} (city country theme : String)
    (distance : Int) (size : String) (dpi : Int) (format : String)
    (no_cache : Bool) (lat lon : Int) (output_path : String)
    (fetchResult : α) (now : String) (cW rW : Bool) (w : World α) :
    (mainRun city country theme distance size dpi format no_cache lat lon
        output_path fetchResult now cW rW w).events.head? =
      some Event.lookupRegistry ∧
    (∀ rec, (check_previous_output city country theme distance size dpi
        format w.registry).1 = some rec →
      (((ROOT_DIR ++ "/" ++ rec.path) ∈ w.files →
        Event.mapFetch ∉ (mainRun city country theme distance size dpi format
          no_cache lat lon output_path fetchResult now cW rW w).events ∧
        Event.render ∉ (mainRun city country theme distance size dpi format
          no_cache lat lon output_path fetchResult now cW rW w).events ∧
        Event.recordOutput ∉ (mainRun city country theme distance size dpi
          format no_cache lat lon output_path fetchResult now cW rW w).events ∧
        (mainRun city country theme distance size dpi format no_cache lat lon
          output_path fetchResult now cW rW w).world = w ∧
        (mainRun city country theme distance size dpi format no_cache lat lon
          output_path fetchResult now cW rW w).reported =
            some (rec.path, rec.generated_at) ∧
        (mainRun city country theme distance size dpi format no_cache lat lon
          output_path fetchResult now cW rW w).exitCode = 0) ∧
       ((ROOT_DIR ++ "/" ++ rec.path) ∉ w.files →
        Event.render ∈ (mainRun city country theme distance size dpi format
          no_cache lat lon output_path fetchResult now cW rW w).events ∧
        Event.recordOutput ∈ (mainRun city country theme distance size dpi
          format no_cache lat lon output_path fetchResult now cW rW w).events ∧
        (mainRun city country theme distance size dpi format no_cache lat lon
          output_path fetchResult now cW rW w).reported = none))) := by
  cases hprev : (check_previous_output city country theme distance size dpi
      format w.registry).1 with
  | none =>
      constructor
      · simp only [mainRun, hprev]
        exact (mainGenerate_shape city country theme distance size dpi format
          no_cache lat lon output_path fetchResult now cW rW w).2.1
      · intro rec h
        exact absurd h (by simp)
  | some rec0 =>
      by_cases hmem : (ROOT_DIR ++ "/" ++ rec0.path) ∈ w.files
      · constructor
        · simp [mainRun, hprev, hmem]
        · intro rec h
          have hr : rec = rec0 := (Option.some.inj h).symm
          subst hr
          refine ⟨fun _ => ?_, fun hnot => absurd hmem hnot⟩
          simp [mainRun, hprev, hmem]
      · have hgen := mainGenerate_shape city country theme distance size dpi
          format no_cache lat lon output_path fetchResult now cW rW w
        constructor
        · simp only [mainRun, hprev, if_neg hmem]
          exact hgen.2.1
        · intro rec h
          have hr : rec = rec0 := (Option.some.inj h).symm
          subst hr
          refine ⟨fun hyes => absurd hyes hmem, fun _ => ?_⟩
          simp only [mainRun, hprev, if_neg hmem]
          exact ⟨hgen.2.2.1, hgen.2.2.2, hgen.1⟩

/-- C1 witness: a registry holding the Rome record whose file exists on
disk short-circuits the run (no fetch, no render, no registry write,
existing path and timestamp reported, exit 0). -/
theorem mainRun_registry_short_circuit_witness :
    Event.mapFetch ∉ (mainRun "Rome" "Italy" "noir" 6000 "default" 300 "png"
        false 41902800 12496400
        (ROOT_DIR ++ "/posters/rome_noir_20260122_120000.png") (7 : Nat)
        "2026-01-22T12:00:00" true true
        ⟨RegFile.valid
            [(_make_output_key "Rome" "Italy" "noir" 6000 "default" 300 "png",
              { path := "posters/rome_noir_20260122_100000.png",
                generated_at := "2026-01-22T10:00:00", city := "Rome",
                country := "Italy", theme := "noir", distance_m := 6000,
                size := "default", dpi := 300, format := "png" })], [],
          [ROOT_DIR ++ "/posters/rome_noir_20260122_100000.png"]⟩).events ∧
    (mainRun "Rome" "Italy" "noir" 6000 "default" 300 "png"
        false 41902800 12496400
        (ROOT_DIR ++ "/posters/rome_noir_20260122_120000.png") (7 : Nat)
        "2026-01-22T12:00:00" true true
        ⟨RegFile.valid
            [(_make_output_key "Rome" "Italy" "noir" 6000 "default" 300 "png",
              { path := "posters/rome_noir_20260122_100000.png",
                generated_at := "2026-01-22T10:00:00", city := "Rome",
                country := "Italy", theme := "noir", distance_m := 6000,
                size := "default", dpi := 300, format := "png" })], [],
          [ROOT_DIR ++ "/posters/rome_noir_20260122_100000.png"]⟩).reported =
      some ("posters/rome_noir_20260122_100000.png", "2026-01-22T10:00:00") := by
  have h := ((mainRun_registry_short_circuit "Rome" "Italy" "noir" 6000
      "default" 300 "png" false 41902800 12496400
      (ROOT_DIR ++ "/posters/rome_noir_20260122_120000.png") (7 : Nat)
      "2026-01-22T12:00:00" true true
      ⟨RegFile.valid
          [(_make_output_key "Rome" "Italy" "noir" 6000 "default" 300 "png",
            { path := "posters/rome_noir_20260122_100000.png",
              generated_at := "2026-01-22T10:00:00", city := "Rome",
              country := "Italy", theme := "noir", distance_m := 6000,
              size := "default", dpi := 300, format := "png" })], [],
        [ROOT_DIR ++ "/posters/rome_noir_20260122_100000.png"]⟩).2
      { path := "posters/rome_noir_20260122_100000.png",
        generated_at := "2026-01-22T10:00:00", city := "Rome",
        country := "Italy", theme := "noir", distance_m := 6000,
        size := "default", dpi := 300, format := "png" }
      (by simp [check_previous_output, load_output_index, lookupA])).1
    (by decide)
  exact ⟨h.1, h.2.2.2.2.1⟩

end TerraPoster
